import Mathlib

/-!
Shallow embedding of `build_it.py`, a single-file build pipeline:
it resolves the latest Bedrock server download link, guards on a
previously recorded version, downloads the archive with curl, logs in to
and publishes a Docker image, optionally syncs the git repository, and
records the built version atomically.

External effects (HTTP, subprocesses, the file system) are modelled by an
environment record whose fields give the outcome of each external call;
a run is a pure function from that environment to a trace of attempted
actions plus the final state-file content.
-/

namespace BuildIt

/- ------------------------- character utilities ------------------------- -/

/-- ASCII decimal digit; models the regex class for digits. -/
def isAsciiDigit (c : Char) : Bool := ('0' ≤ c) && (c ≤ '9')

/-- ASCII letter. -/
def isAsciiAlpha (c : Char) : Bool :=
  (('a' ≤ c) && (c ≤ 'z')) || (('A' ≤ c) && (c ≤ 'Z'))

/-- Case-insensitive character comparison (re.IGNORECASE on ASCII). -/
def ciEq (a b : Char) : Bool := a.toLower == b.toLower

/-- Characters stripped by Python str.strip with no argument (ASCII part). -/
def isPySpace (c : Char) : Bool :=
  c == ' ' || c == '\t' || c == '\n' || c == '\r' ||
  c == Char.ofNat 11 || c == Char.ofNat 12

/-- Python str.strip on a character list: drop whitespace from both ends. -/
def pyStripList (s : List Char) : List Char :=
  (((s.dropWhile isPySpace).reverse).dropWhile isPySpace).reverse

/-- Python str.strip on a string. -/
def pyStrip (s : String) : String := String.mk (pyStripList s.toList)

/-- `truthy` from the source: strip, lowercase, compare against the
    accepted set of truthy strings. -/
def truthy (val : Option String) : Bool :=
  let s := (pyStripList (val.getD ("")).toList).map Char.toLower
  s == ['1'] || s == ['t', 'r', 'u', 'e'] || s == ['y', 'e', 's'] ||
    s == ['y'] || s == ['o', 'n']

/- ------------------------- urlparse path extraction ------------------------- -/

/-- Split a list at the first occurrence of `c`: the part before it, and
    (when `c` occurs) the part after it. -/
def splitAtFirst (c : Char) : List Char → List Char × Option (List Char)
  | [] => ([], none)
  | x :: xs =>
    if x = c then ([], some xs)
    else
      let (a, b) := splitAtFirst c xs
      (x :: a, b)

/-- Characters allowed in a URL scheme (urllib scheme_chars). -/
def isSchemeChar (c : Char) : Bool :=
  isAsciiAlpha c || isAsciiDigit c || c == '+' || c == '-' || c == '.'

/-- Strip a leading `scheme:` when a well-formed scheme is present,
    as urllib.parse.urlsplit does. -/
def stripScheme (l : List Char) : List Char :=
  match splitAtFirst ':' l with
  | (before, some rest) =>
    match before with
    | [] => l
    | c :: cs => if isAsciiAlpha c && (c :: cs).all isSchemeChar then rest else l
  | (_, none) => l

/-- After a leading `//`, the netloc extends to the first of `/`, `?`, `#`. -/
def dropNetlocChars : List Char → List Char
  | [] => []
  | c :: cs => if c == '/' || c == '?' || c == '#' then c :: cs else dropNetlocChars cs

/-- Strip `//netloc` when present, as urlsplit does. -/
def stripNetloc : List Char → List Char
  | '/' :: '/' :: rest => dropNetlocChars rest
  | l => l

/-- Split off everything up to and including the last `/`. -/
def lastSegSplit (l : List Char) : List Char × List Char :=
  match splitAtFirst '/' l.reverse with
  | (segRev, some restRev) => (restRev.reverse ++ ['/'], segRev.reverse)
  | (_, none) => ([], l)

/-- urlparse splits `;params` off the last path segment when a `;` occurs
    there. -/
def splitParams (l : List Char) : List Char :=
  if l.contains ';' then
    if l.contains '/' then
      let (pre, seg) := lastSegSplit l
      match splitAtFirst ';' seg with
      | (a, some _) => pre ++ a
      | (_, none) => l
    else (splitAtFirst ';' l).1
  else l

/-- The `.path` of Python urlparse: strip scheme, netloc, fragment, query
    and params. -/
def urlparsePath (url : List Char) : List Char :=
  let l := stripScheme url
  let l := stripNetloc l
  let l := (splitAtFirst '#' l).1
  let l := (splitAtFirst '?' l).1
  splitParams l

/-- Split a character list on slashes. -/
def splitOnSlash : List Char → List (List Char)
  | [] => [[]]
  | c :: cs =>
    let r := splitOnSlash cs
    if c = '/' then [] :: r
    else
      match r with
      | [] => [[c]]
      | h :: t => (c :: h) :: t

/-- PurePosixPath(...).name: the last path component, with empty and `.`
    components dropped. -/
def posixName (p : List Char) : List Char :=
  ((((splitOnSlash p).filter (fun s => !(s.isEmpty) && !(s == ['.'])))).getLast?).getD []

/- ------------------------- version regex ------------------------- -/

/-!
The default pattern of `extract_version_from_url` is

  bedrock[-_]?server[-_]?v?(\d+(?:\.\d+)+)\.zip(?:\?.*)?$

searched case-insensitively at every start position (re.search).  The
environment override BEDROCK_VERSION_REGEX is modelled as unset.  Because
each optional element is followed by an atom drawn from a disjoint
character set, and every starred digit run is followed by an atom that
cannot begin with a digit, the greedy left-to-right reading below is
equivalent to full backtracking for this pattern.
-/

/-- Match a literal character list case-insensitively at the head,
    returning the remainder on success. -/
def matchLit : List Char → List Char → Option (List Char)
  | [], s => some s
  | _ :: _, [] => none
  | l :: ls, c :: cs => if ciEq l c then matchLit ls cs else none

/-- Match an optional single character from a class (e.g. the pattern
    piece matching one optional dash or underscore). -/
def matchOptClass (cls : List Char) : List Char → List Char
  | [] => []
  | c :: cs => if cls.contains c then cs else c :: cs

/-- Maximal run of digits at the head. -/
def takeDigits : List Char → List Char × List Char
  | [] => ([], [])
  | c :: cs =>
    if isAsciiDigit c then
      let (d, r) := takeDigits cs
      (c :: d, r)
    else ([], c :: cs)

/-- One or more groups of a dot followed by digits, consumed greedily;
    fuel bounds the recursion by the input length. -/
def takeDotGroups : Nat → List Char → List Char × List Char
  | 0, s => ([], s)
  | Nat.succ n, s =>
    match s with
    | '.' :: rest =>
      match takeDigits rest with
      | ([], _) => ([], s)
      | (d, r) =>
        let (more, r2) := takeDotGroups n r
        ('.' :: (d ++ more), r2)
    | _ => ([], s)

/-- Python regex end anchor: end of string, or just before one final
    newline. -/
def dollarAt (r : List Char) : Bool :=
  r == [] || r == ['\n']

/-- The tail regex piece matching an optional query suffix then the end
    anchor: either the anchor holds immediately, or a question mark is
    followed by newline-free text and then the anchor. -/
def optQueryEnd (r : List Char) : Bool :=
  dollarAt r ||
    (match r with
     | '?' :: t =>
       t.all (fun c => !(c == '\n')) ||
         ((t.dropLast.all (fun c => !(c == '\n'))) && (t.getLast? == some '\n'))
     | _ => false)

/-- Match the literal `.zip` then the optional query suffix and anchor. -/
def matchZipEnd (s : List Char) : Bool :=
  match matchLit ['.', 'z', 'i', 'p'] s with
  | none => false
  | some r => optQueryEnd r

/-- Anchored match of the whole default pattern at the head of `s`,
    returning the capture group (the dotted numeric version). -/
def matchAt (s : List Char) : Option (List Char) :=
  match matchLit ['b', 'e', 'd', 'r', 'o', 'c', 'k'] s with
  | none => none
  | some s1 =>
    match matchLit ['s', 'e', 'r', 'v', 'e', 'r'] (matchOptClass ['-', '_'] s1) with
    | none => none
    | some s3 =>
      let s5 := matchOptClass ['v', 'V'] (matchOptClass ['-', '_'] s3)
      match takeDigits s5 with
      | ([], _) => none
      | (d, r) =>
        match takeDotGroups (r.length + 1) r with
        | ([], _) => none
        | (g, r2) => if matchZipEnd r2 then some (d ++ g) else none

/-- re.search: try the pattern at each start position, leftmost first. -/
def searchVersion : List Char → Option (List Char)
  | [] => none
  | c :: cs =>
    match matchAt (c :: cs) with
    | some g => some g
    | none => searchVersion cs

/-- `extract_version_from_url` from the source: search the filename of the
    URL path first, then fall back to searching the entire URL; `none`
    models the Python return of None. -/
def extract_version_from_url (url : String) : Option String :=
  match searchVersion (posixName (urlparsePath url.toList)) with
  | some g => some (String.mk g)
  | none =>
    match searchVersion url.toList with
    | some g => some (String.mk g)
    | none => none

/-- The version string the pipeline derives from a URL (line 98 of the
    source): the extracted version, with None degraded to "unknown". -/
def versionOfUrl (url : String) : String :=
  (extract_version_from_url url).getD ("unknown")

example :
    versionOfUrl ("https://minecraft.azureedge.net/bin-linux/bedrock-server-1.21.102.1.zip")
      = "1.21.102.1" := by decide

example :
    versionOfUrl ("https://example.com/x?y=bedrock-server-1.2.3.zip") = "1.2.3" := by decide

example :
    versionOfUrl ("https://example.com/somethingelse.zip") = "unknown" := by decide

/- ------------------------- bedrock links API ------------------------- -/

/-- One entry of the links array in the API response. -/
structure LinkEntry where
  downloadType : String
  downloadUrl : String
deriving DecidableEq

/-- `get_latest_linux_bedrock_url` from the source, given the parsed links
    array of the API response: find the serverBedrockLinux entry (error
    models the RuntimeError when absent), return its URL and the version
    parsed from the URL filename. -/
def get_latest_linux_bedrock_url (links : List LinkEntry) :
    Except String (String × String) :=
  match links.find? (fun entry => entry.downloadType == "serverBedrockLinux") with
  | none => Except.error ("Could not find Bedrock Linux server download link")
  | some linux =>
    let download_url := linux.downloadUrl
    Except.ok (download_url, versionOfUrl download_url)

/- ------------------------- version file helpers ------------------------- -/

/-- The version file on disk, together with its temporary sibling
    (`<name>.tmp`).  Contents are whole-file strings; `none` means the
    file is absent. -/
structure FS where
  target : Option String
  tmp : Option String
deriving DecidableEq

/-- `tmp.write_text(version + "\n")`: touches only the temporary file. -/
def tmpWrite (fs : FS) (content : String) : FS :=
  { fs with tmp := some content }

/-- `tmp.replace(version_file)`: the atomic rename; the target takes the
    whole temporary content in one step. -/
def renameTmp (fs : FS) : FS :=
  { target := fs.tmp, tmp := none }

/-- `write_version_atomic` from the source: write the temporary file, then
    atomically rename it over the version file. -/
def write_version_atomic (fs : FS) (version : String) : FS :=
  renameTmp (tmpWrite fs (version ++ "\n"))

/-- `read_prev_version` from the source: None when the file is absent,
    else the stripped file content. -/
def read_prev_version (content : Option String) : Option String :=
  content.map pyStrip

/- ------------------------- actions ------------------------- -/

/-- The default output path for the downloaded archive. -/
def defaultOutputZip : String := "bedrock-server.zip"

/-- The exact curl command line built by `download_with_curl`. -/
def curl_cmd (download_url output_file : String) : List String :=
  ["curl", "-s", "-k", "-X", "GET",
   "-H", "Host: www.minecraft.net",
   "-H", "Sec-Ch-Ua: \"Not:A-Brand\";v=\"99\", \"Chromium\";v=\"112\"",
   "-H", "Sec-Ch-Ua-Mobile: ?0",
   "-H", "Sec-Ch-Ua-Platform: \"Windows\"",
   "-H", "Upgrade-Insecure-Requests: 1",
   "-H", "User-Agent: Mozilla/5.0 (Windows NT 10.0; Win64; x64) AppleWebKit/537.36 (KHTML, like Gecko) Chrome/112.0.5615.50 Safari/537.36",
   "-H", "Accept: text/html,application/xhtml+xml,application/xml;q=0.9,image/avif,image/webp,image/apng,*/*;q=0.8,application/signed-exchange;v=b3;q=0.7",
   "-H", "Sec-Fetch-Site: same-origin",
   "-H", "Sec-Fetch-Mode: navigate",
   "-H", "Sec-Fetch-User: ?1",
   "-H", "Sec-Fetch-Dest: document",
   "-H", "Referer: https://www.minecraft.net/en-us/download/server/bedrock",
   "-H", "Accept-Encoding: gzip, deflate",
   "-H", "Accept-Language: en-US,en;q=0.9",
   download_url,
   "-o", output_file]

/-- Whether a curl argument requests fail-on-HTTP-error behaviour: the
    long flag, or an f inside a cluster of short flags (a single dash not
    followed by a second dash). -/
def argHasFailFlag (a : String) : Bool :=
  a == "--fail" ||
    (match a.toList with
     | '-' :: '-' :: _ => false
     | '-' :: rest => rest.contains 'f'
     | _ => false)

/-- curl exit model: nonzero on transport failure; on a completed transfer
    the exit is zero unless a fail flag makes a non-2xx status an error. -/
def curlExitZero (cmd : List String) (transportOk http2xx : Bool) : Bool :=
  transportOk && (http2xx || !(cmd.any argHasFailFlag))

/- ------------------------- docker login (secret flow) ------------------------- -/

/-- Python shlex.quote: unchanged when every character is safe, otherwise
    wrapped in single quotes with embedded quotes escaped. -/
def shlexSafeChar (c : Char) : Bool :=
  isAsciiAlpha c || isAsciiDigit c || c == '_' || c == '@' || c == '%' ||
    c == '+' || c == '=' || c == ':' || c == ',' || c == '.' || c == '/' || c == '-'

/-- The line `run` prints for a command: each argument shlex-quoted,
    joined by spaces, after a dollar prompt. -/
def runEchoLine (cmd : List String) : String :=
  "$ " ++ String.intercalate (" ")
    (cmd.map (fun a =>
      if a.toList.all shlexSafeChar && !(a == "") then a
      else "\x27" ++ a ++ "\x27"))

/-- One spawned subprocess: its argument vector and what is piped to its
    standard input. -/
structure Spawn where
  argv : List String
  stdinData : Option String
deriving DecidableEq

/-- Observable behaviour of `docker_login`: the echoed command lines and
    the spawned subprocesses. -/
structure LoginRun where
  printed : List String
  spawns : List Spawn
deriving DecidableEq

/-- `docker_login` from the source, for an existing credential file with
    content `password`: the argument vector is built from the username
    only, and the secret is supplied on standard input. -/
def docker_login (username password : String) : LoginRun :=
  let cmd := ["docker", "login", "-u", username, "--password-stdin"]
  { printed := [runEchoLine cmd], spawns := [⟨cmd, some password⟩] }

/- ------------------------- pipeline events and environment ------------------------- -/

/-- An externally visible action attempted by one run of `main`. -/
inductive Event where
  | downloadAttempt (url : String)
  | logoutAttempt
  | loginAttempt
  | buildAttempt
  | pushAttempt
  | gitAdd
  | gitDiff
  | gitCommit
  | gitPush
  | stateWrite (version : String)
deriving DecidableEq

/-- Outcomes of every external interaction of one run, fixed up front. -/
structure Env where
  /-- Parsed links array of the API response; `none` models a raised
      transport or HTTP or JSON error in the API GET. -/
  apiLinks : Option (List LinkEntry)
  /-- Content of the version state file; `none` models an absent file. -/
  versionFileContent : Option String
  /-- The FORCE_BUILD flag after `truthy`. -/
  forceBuild : Bool
  /-- Whether the curl transfer completes (transport level). -/
  curlTransportOk : Bool
  /-- Whether the archive HTTP response status is 2xx. -/
  curlHttp2xx : Bool
  /-- Content of the Docker password file; `none` models an absent file,
      which makes `docker_login` raise FileNotFoundError. -/
  passFileContent : Option String
  /-- Exit-zero outcomes of the external commands. -/
  logoutExitZero : Bool
  loginExitZero : Bool
  buildExitZero : Bool
  pushExitZero : Bool
  gitAddExitZero : Bool
  /-- Whether `git diff --cached --quiet` returns 0 (nothing staged). -/
  gitDiffCachedQuiet : Bool
  gitCommitExitZero : Bool
  gitPushExitZero : Bool
  /-- Whether `write_version_atomic` completes without an OS error. -/
  writeSucceeds : Bool
deriving DecidableEq

/-- Result of one run: the trace of attempted actions, the final state
    file content, and whether an exception escaped `main`. -/
structure RunResult where
  trace : List Event
  stateFile : Option String
  crashed : Bool
deriving DecidableEq

def isDownloadAttempt : Event → Bool
  | Event.downloadAttempt _ => true
  | _ => false

def isLogout : Event → Bool
  | Event.logoutAttempt => true
  | _ => false

def isStateWrite : Event → Bool
  | Event.stateWrite _ => true
  | _ => false

def isGitCommit : Event → Bool
  | Event.gitCommit => true
  | _ => false

def isGitPush : Event → Bool
  | Event.gitPush => true
  | _ => false

/-- A download was attempted during the run. -/
def downloadAttempted (t : List Event) : Bool := t.any isDownloadAttempt

/-- The publish stage was reached (its first action is the pre-login
    logout). -/
def publishAttempted (t : List Event) : Bool := t.any isLogout

/-- `write_version_atomic` was invoked during the run. -/
def stateWritten (t : List Event) : Bool := t.any isStateWrite

/-- Number of logout attempts in the run. -/
def logoutCount (t : List Event) : Nat := t.countP (fun e => isLogout e)

/- ------------------------- main ------------------------- -/

/-- The resolver step of `main`: on any exception from the API check
    (absent response or missing Linux entry) degrade to no URL and
    version "unknown". -/
def resolveLinks (api : Option (List LinkEntry)) : Option String × String :=
  match api with
  | none => (none, "unknown")
  | some links =>
    match get_latest_linux_bedrock_url links with
    | Except.error _ => (none, "unknown")
    | Except.ok (u, v) => (some u, v)

/-- The version guard of `main`: skip when the version is known, equals
    the recorded one, and the run is not forced. -/
def skipGuard (version : String) (prev : Option String) (force : Bool) : Bool :=
  version != "unknown" && prev == some version && !force

/-- The Docker section of `main`: pre-login logout, then
    login/build/push under a try with a logout in the finally block.
    Returns its trace, the built_ok flag that the run sets, and whether
    an uncaught exception (FileNotFoundError for the password file)
    escapes. -/
def dockerPhase (env : Env) : List Event × Bool × Bool :=
  let pre := [Event.logoutAttempt]
  match env.passFileContent with
  | none =>
    -- docker_login raises FileNotFoundError, which the except clause for
    -- CalledProcessError does not catch; the finally logout still runs.
    (pre ++ [Event.logoutAttempt], false, true)
  | some _ =>
    let e := pre ++ [Event.loginAttempt]
    if env.loginExitZero then
      let e := e ++ [Event.buildAttempt]
      if env.buildExitZero then
        let e := e ++ [Event.pushAttempt]
        if env.pushExitZero then
          (e ++ [Event.logoutAttempt], true, false)
        else
          (e ++ [Event.logoutAttempt], false, false)
      else
        (e ++ [Event.logoutAttempt], false, false)
    else
      (e ++ [Event.logoutAttempt], false, false)

/-- `git_add_commit_push` from the source: stage everything, then commit
    and push only when something is staged; a failing add or commit
    raises CalledProcessError (caught in `main` as non-fatal). -/
def git_add_commit_push (env : Env) : List Event :=
  let e := [Event.gitAdd]
  if env.gitAddExitZero then
    let e := e ++ [Event.gitDiff]
    if env.gitDiffCachedQuiet then e
    else
      let e := e ++ [Event.gitCommit]
      if env.gitCommitExitZero then e ++ [Event.gitPush] else e
  else e

/-- The version-recording step of `main`: `write_version_atomic` is
    invoked; on an OS error the exception is caught and the state file
    keeps its prior content. -/
def recordPhase (env : Env) (version : String) : List Event × Option String :=
  ([Event.stateWrite version],
   if env.writeSucceeds then
     (write_version_atomic ⟨env.versionFileContent, none⟩ version).target
   else env.versionFileContent)

/-- Everything after a successful (or absent) download: the Docker phase,
    then conditionally the git sync and the version record. -/
def afterDownload (env : Env) (version : String) (dlTrace : List Event) : RunResult :=
  match dockerPhase env with
  | (dTrace, built_ok, crashed) =>
    if crashed then
      { trace := dlTrace ++ dTrace, stateFile := env.versionFileContent, crashed := true }
    else if built_ok then
      let gTrace := git_add_commit_push env
      match recordPhase env version with
      | (rTrace, finalFile) =>
        { trace := dlTrace ++ dTrace ++ gTrace ++ rTrace,
          stateFile := finalFile, crashed := false }
    else
      { trace := dlTrace ++ dTrace, stateFile := env.versionFileContent, crashed := false }

/-- Python truthiness of an optional string, as in `if download_url:`
    (line 219 of the source): false for None and for the empty string. -/
def pyTruthy : Option String → Bool
  | none => false
  | some u => !(u.data.isEmpty)

/-- The download step and what follows it: `if download_url:` guards the
    curl call by truthiness, so no download runs for an absent or empty
    URL; when curl runs (check=True), a nonzero exit raises, is caught,
    and ends the run with no further action. -/
def afterGuard (env : Env) (download_url : Option String) (version : String) : RunResult :=
  match download_url with
  | none => afterDownload env version []
  | some u =>
    if u.data.isEmpty then afterDownload env version []
    else if curlExitZero (curl_cmd u defaultOutputZip) env.curlTransportOk env.curlHttp2xx then
      afterDownload env version [Event.downloadAttempt u]
    else
      { trace := [Event.downloadAttempt u],
        stateFile := env.versionFileContent, crashed := false }

/-- `main` from the source, as a function of the external outcomes. -/
def mainRun (env : Env) : RunResult :=
  match resolveLinks env.apiLinks with
  | (download_url, version) =>
    let prev := read_prev_version env.versionFileContent
    if skipGuard version prev env.forceBuild then
      { trace := [], stateFile := env.versionFileContent, crashed := false }
    else afterGuard env download_url version

/- ------------------------- phase lemmas ------------------------- -/

theorem dockerPhase_publish (env : Env) :
    publishAttempted (dockerPhase env).1 = true := by
  unfold dockerPhase
  cases env.passFileContent <;> cases env.loginExitZero <;>
    cases env.buildExitZero <;> cases env.pushExitZero <;> rfl

theorem dockerPhase_logoutCount (env : Env) :
    logoutCount (dockerPhase env).1 = 2 := by
  unfold dockerPhase
  cases env.passFileContent <;> cases env.loginExitZero <;>
    cases env.buildExitZero <;> cases env.pushExitZero <;> rfl

theorem dockerPhase_no_download (env : Env) :
    downloadAttempted (dockerPhase env).1 = false := by
  unfold dockerPhase
  cases env.passFileContent <;> cases env.loginExitZero <;>
    cases env.buildExitZero <;> cases env.pushExitZero <;> rfl

theorem dockerPhase_no_stateWrite (env : Env) :
    stateWritten (dockerPhase env).1 = false := by
  unfold dockerPhase
  cases env.passFileContent <;> cases env.loginExitZero <;>
    cases env.buildExitZero <;> cases env.pushExitZero <;> rfl

theorem dockerPhase_no_commit (env : Env) :
    (dockerPhase env).1.any isGitCommit = false := by
  unfold dockerPhase
  cases env.passFileContent <;> cases env.loginExitZero <;>
    cases env.buildExitZero <;> cases env.pushExitZero <;> rfl

theorem dockerPhase_no_push (env : Env) :
    (dockerPhase env).1.any isGitPush = false := by
  unfold dockerPhase
  cases env.passFileContent <;> cases env.loginExitZero <;>
    cases env.buildExitZero <;> cases env.pushExitZero <;> rfl

theorem git_no_logout (env : Env) :
    logoutCount (git_add_commit_push env) = 0 := by
  unfold git_add_commit_push
  cases env.gitAddExitZero <;> cases env.gitDiffCachedQuiet <;>
    cases env.gitCommitExitZero <;> rfl

theorem git_no_download (env : Env) :
    downloadAttempted (git_add_commit_push env) = false := by
  unfold git_add_commit_push
  cases env.gitAddExitZero <;> cases env.gitDiffCachedQuiet <;>
    cases env.gitCommitExitZero <;> rfl

theorem git_no_stateWrite (env : Env) :
    stateWritten (git_add_commit_push env) = false := by
  unfold git_add_commit_push
  cases env.gitAddExitZero <;> cases env.gitDiffCachedQuiet <;>
    cases env.gitCommitExitZero <;> rfl

theorem git_quiet_no_commit_push (env : Env) (h : env.gitDiffCachedQuiet = true) :
    (git_add_commit_push env).any isGitCommit = false ∧
      (git_add_commit_push env).any isGitPush = false := by
  unfold git_add_commit_push
  rw [h]
  cases env.gitAddExitZero <;> exact ⟨rfl, rfl⟩

theorem afterDownload_publish (env : Env) (v : String) (dl : List Event) :
    publishAttempted (afterDownload env v dl).trace = true := by
  unfold afterDownload
  rcases hd : dockerPhase env with ⟨dT, bo, cr⟩
  have hp : dT.any isLogout = true := by
    have := dockerPhase_publish env
    rw [hd] at this
    exact this
  cases cr <;> cases bo <;>
    simp [publishAttempted, List.any_append, hp]

theorem afterDownload_logoutCount (env : Env) (v : String) (dl : List Event)
    (h : logoutCount dl = 0) :
    logoutCount (afterDownload env v dl).trace = 2 := by
  unfold afterDownload
  rcases hd : dockerPhase env with ⟨dT, bo, cr⟩
  have hc : dT.countP (fun e => isLogout e) = 2 := by
    have := dockerPhase_logoutCount env
    rw [hd] at this
    exact this
  have hg : (git_add_commit_push env).countP (fun e => isLogout e) = 0 :=
    git_no_logout env
  unfold logoutCount at h
  have hr : List.countP (fun e => isLogout e) [Event.stateWrite v] = 0 := rfl
  cases cr <;> cases bo <;>
    simp [recordPhase, logoutCount, List.countP_append, h, hc, hg, hr]

theorem afterDownload_download (env : Env) (v : String) (dl : List Event) :
    downloadAttempted (afterDownload env v dl).trace = downloadAttempted dl := by
  unfold afterDownload
  rcases hd : dockerPhase env with ⟨dT, bo, cr⟩
  have hp : dT.any isDownloadAttempt = false := by
    have := dockerPhase_no_download env
    rw [hd] at this
    exact this
  have hg : (git_add_commit_push env).any isDownloadAttempt = false :=
    git_no_download env
  cases cr <;> cases bo <;>
    simp [recordPhase, downloadAttempted, List.any_append, hp, hg, isDownloadAttempt]

theorem afterDownload_no_commit_push (env : Env) (v : String) (dl : List Event)
    (h : env.gitDiffCachedQuiet = true)
    (hdl : dl.any isGitCommit = false ∧ dl.any isGitPush = false) :
    (afterDownload env v dl).trace.any isGitCommit = false ∧
      (afterDownload env v dl).trace.any isGitPush = false := by
  unfold afterDownload
  rcases hd : dockerPhase env with ⟨dT, bo, cr⟩
  have hc : dT.any isGitCommit = false := by
    have := dockerPhase_no_commit env
    rw [hd] at this
    exact this
  have hpu : dT.any isGitPush = false := by
    have := dockerPhase_no_push env
    rw [hd] at this
    exact this
  have hg := git_quiet_no_commit_push env h
  cases cr <;> cases bo <;>
    simp [recordPhase, List.any_append, hc, hpu, hg.1, hg.2, hdl.1, hdl.2,
      isGitCommit, isGitPush]

/-- When the resolver yields no URL, the version it yields is "unknown". -/
theorem resolveLinks_none_unknown (api : Option (List LinkEntry))
    (h : (resolveLinks api).1 = none) : (resolveLinks api).2 = "unknown" := by
  cases api with
  | none => rfl
  | some links =>
    cases hg : get_latest_linux_bedrock_url links with
    | error e => simp [resolveLinks, hg]
    | ok uv =>
      rcases uv with ⟨u, v⟩
      simp [resolveLinks, hg] at h

/-- The guard never skips on an unknown version. -/
theorem skipGuard_unknown (prev : Option String) (force : Bool) :
    skipGuard ("unknown") prev force = false := by
  unfold skipGuard
  simp

/-- The guard condition, spelled out. -/
theorem skipGuard_iff (v : String) (prev : Option String) (f : Bool) :
    skipGuard v prev f = true ↔ (v ≠ "unknown" ∧ prev = some v ∧ f = false) := by
  unfold skipGuard
  simp [Bool.and_eq_true, bne_iff_ne, Bool.not_eq_true']
  tauto

theorem mainRun_eq_skip (env : Env) (du : Option String) (v : String)
    (hres : resolveLinks env.apiLinks = (du, v))
    (hg : skipGuard v (read_prev_version env.versionFileContent) env.forceBuild = true) :
    mainRun env =
      { trace := [], stateFile := env.versionFileContent, crashed := false } := by
  unfold mainRun
  rw [hres]
  simp [hg]

theorem mainRun_eq_go (env : Env) (du : Option String) (v : String)
    (hres : resolveLinks env.apiLinks = (du, v))
    (hg : skipGuard v (read_prev_version env.versionFileContent) env.forceBuild = false) :
    mainRun env = afterGuard env du v := by
  unfold mainRun
  rw [hres]
  simp [hg]

theorem afterGuard_none (env : Env) (v : String) :
    afterGuard env none v = afterDownload env v [] := rfl

theorem afterGuard_some_empty (env : Env) (u v : String)
    (he : u.data.isEmpty = true) :
    afterGuard env (some u) v = afterDownload env v [] := by
  simp [afterGuard, he]

theorem afterGuard_some_ok (env : Env) (u v : String)
    (he : u.data.isEmpty = false)
    (hc : curlExitZero (curl_cmd u defaultOutputZip)
        env.curlTransportOk env.curlHttp2xx = true) :
    afterGuard env (some u) v = afterDownload env v [Event.downloadAttempt u] := by
  simp [afterGuard, he, hc]

theorem afterGuard_some_fail (env : Env) (u v : String)
    (he : u.data.isEmpty = false)
    (hc : curlExitZero (curl_cmd u defaultOutputZip)
        env.curlTransportOk env.curlHttp2xx = false) :
    afterGuard env (some u) v =
      { trace := [Event.downloadAttempt u],
        stateFile := env.versionFileContent, crashed := false } := by
  simp [afterGuard, he, hc]

/-- Transport failure makes curl exit nonzero whatever the flags. -/
theorem curlExitZero_of_transport_fail (cmd : List String) (h2 : Bool) :
    curlExitZero cmd false h2 = false := by
  simp [curlExitZero]

/- ------------------------- concrete runs ------------------------- -/

/-- A typical resolved download URL. -/
def apiUrl : String :=
  "https://minecraft.azureedge.net/bin-linux/bedrock-server-1.21.102.1.zip"

/-- The Linux server entry of a typical API response. -/
def linuxEntry : LinkEntry := ⟨"serverBedrockLinux", apiUrl⟩

/-- A run where the API check raises and every Docker step succeeds. -/
def envC1 : Env :=
  { apiLinks := none, versionFileContent := some ("1.21.0\n"), forceBuild := false,
    curlTransportOk := true, curlHttp2xx := true, passFileContent := some ("hunter2"),
    logoutExitZero := true, loginExitZero := true, buildExitZero := true,
    pushExitZero := true, gitAddExitZero := true, gitDiffCachedQuiet := true,
    gitCommitExitZero := true, gitPushExitZero := true, writeSucceeds := true }

/-- A run whose archive transfer completes but with a non-2xx status. -/
def envC2x : Env :=
  { apiLinks := some [linuxEntry], versionFileContent := none, forceBuild := false,
    curlTransportOk := true, curlHttp2xx := false, passFileContent := some ("hunter2"),
    logoutExitZero := true, loginExitZero := true, buildExitZero := true,
    pushExitZero := true, gitAddExitZero := true, gitDiffCachedQuiet := true,
    gitCommitExitZero := true, gitPushExitZero := true, writeSucceeds := true }

/-- A run whose archive transfer fails at the transport level. -/
def envC2w : Env :=
  { apiLinks := some [linuxEntry], versionFileContent := none, forceBuild := false,
    curlTransportOk := false, curlHttp2xx := false, passFileContent := some ("hunter2"),
    logoutExitZero := true, loginExitZero := true, buildExitZero := true,
    pushExitZero := true, gitAddExitZero := true, gitDiffCachedQuiet := true,
    gitCommitExitZero := true, gitPushExitZero := true, writeSucceeds := true }

/-- A run where the resolver fails and the Docker login then fails too. -/
def envC6w : Env :=
  { apiLinks := some [⟨"serverBedrockWindows", "https://example.com/bedrock-server-1.0.0.zip"⟩],
    versionFileContent := some ("1.21.0\n"), forceBuild := false,
    curlTransportOk := true, curlHttp2xx := true, passFileContent := some ("hunter2"),
    logoutExitZero := true, loginExitZero := false, buildExitZero := true,
    pushExitZero := true, gitAddExitZero := true, gitDiffCachedQuiet := true,
    gitCommitExitZero := true, gitPushExitZero := true, writeSucceeds := true }

/-- A run that reaches the publish stage and whose login fails. -/
def envC7w : Env :=
  { apiLinks := some [linuxEntry], versionFileContent := none, forceBuild := false,
    curlTransportOk := true, curlHttp2xx := true, passFileContent := some ("hunter2"),
    logoutExitZero := false, loginExitZero := false, buildExitZero := true,
    pushExitZero := true, gitAddExitZero := true, gitDiffCachedQuiet := true,
    gitCommitExitZero := true, gitPushExitZero := true, writeSucceeds := true }

/-- A fully successful run with nothing staged in git. -/
def envC8w : Env :=
  { apiLinks := some [linuxEntry], versionFileContent := none, forceBuild := false,
    curlTransportOk := true, curlHttp2xx := true, passFileContent := some ("hunter2"),
    logoutExitZero := true, loginExitZero := true, buildExitZero := true,
    pushExitZero := true, gitAddExitZero := true, gitDiffCachedQuiet := true,
    gitCommitExitZero := true, gitPushExitZero := true, writeSucceeds := true }

/- ------------------------- claims ------------------------- -/

/-- C2 (amended): in every run in which the archive download is attempted
    and the transfer fails at the transport level, curl exits nonzero, the
    raised error is caught, and the pipeline terminates with no publish
    step, no invocation of the version recorder, and the state file
    unchanged.  (A non-2xx response with a completed transfer is not
    detected, since the curl command carries no fail flag; see the
    counterexample.) -/
theorem download_failure_aborts (env : Env)
    (hdl : downloadAttempted (mainRun env).trace = true)
    (ht : env.curlTransportOk = false) :
    publishAttempted (mainRun env).trace = false ∧
      stateWritten (mainRun env).trace = false ∧
      (mainRun env).stateFile = env.versionFileContent ∧
      (mainRun env).crashed = false := by
  rcases hres : resolveLinks env.apiLinks with ⟨du, v⟩
  cases hg : skipGuard v (read_prev_version env.versionFileContent) env.forceBuild with
  | true =>
    rw [mainRun_eq_skip env du v hres hg] at hdl
    simp [downloadAttempted] at hdl
  | false =>
    rw [mainRun_eq_go env du v hres hg] at hdl ⊢
    cases du with
    | none =>
      rw [afterGuard_none, afterDownload_download] at hdl
      simp [downloadAttempted] at hdl
    | some u =>
      cases he : u.data.isEmpty with
      | true =>
        rw [afterGuard_some_empty env u v he, afterDownload_download] at hdl
        simp [downloadAttempted] at hdl
      | false =>
        have hc : curlExitZero (curl_cmd u defaultOutputZip)
            env.curlTransportOk env.curlHttp2xx = false := by
          rw [ht]
          exact curlExitZero_of_transport_fail _ _
        rw [afterGuard_some_fail env u v he hc]
        exact ⟨rfl, rfl, rfl, rfl⟩

/-- C2 witness: a concrete transport failure aborts the run before
    publish, leaving the state file alone. -/
theorem download_failure_aborts_witness :
    downloadAttempted (mainRun envC2w).trace = true ∧
      envC2w.curlTransportOk = false ∧
      (publishAttempted (mainRun envC2w).trace = false ∧
        stateWritten (mainRun envC2w).trace = false ∧
        (mainRun envC2w).stateFile = envC2w.versionFileContent ∧
        (mainRun envC2w).crashed = false) :=
  ⟨by decide, rfl, download_failure_aborts envC2w (by decide) rfl⟩

/-- C2 counterexample: a completed transfer of a non-2xx response is not
    a failure for the pipeline; the run proceeds to publish and even to
    the version record, contradicting the claim that a non-2xx response
    fails the download and aborts the pipeline. -/
theorem non2xx_not_detected :
    envC2x.curlHttp2xx = false ∧
      downloadAttempted (mainRun envC2x).trace = true ∧
      publishAttempted (mainRun envC2x).trace = true ∧
      stateWritten (mainRun envC2x).trace = true := by decide

/-- C6: whenever the resolver yields no URL (the API check raised, or the
    Linux entry is absent), the run does not abort: the version degrades
    to "unknown", no download is attempted, and the publish stage is
    still reached. -/
theorem resolver_failure_degrades (env : Env)
    (h : (resolveLinks env.apiLinks).1 = none) :
    (resolveLinks env.apiLinks).2 = "unknown" ∧
      downloadAttempted (mainRun env).trace = false ∧
      publishAttempted (mainRun env).trace = true := by
  have hv : (resolveLinks env.apiLinks).2 = "unknown" := resolveLinks_none_unknown _ h
  have hres : resolveLinks env.apiLinks = (none, "unknown") := by
    rcases hr : resolveLinks env.apiLinks with ⟨du, v⟩
    rw [hr] at h hv
    simp only at h hv
    rw [h, hv]
  have hmain : mainRun env = afterGuard env none ("unknown") :=
    mainRun_eq_go env none ("unknown") hres (skipGuard_unknown _ _)
  refine ⟨hv, ?_, ?_⟩
  · rw [hmain, afterGuard_none, afterDownload_download]
    rfl
  · rw [hmain, afterGuard_none]
    exact afterDownload_publish env ("unknown") []

/-- C6 witness: a response without the Linux entry degrades to an
    "unknown" version and still reaches the publish stage. -/
theorem resolver_failure_degrades_witness :
    (resolveLinks envC6w.apiLinks).1 = none ∧
      ((resolveLinks envC6w.apiLinks).2 = "unknown" ∧
        downloadAttempted (mainRun envC6w).trace = false ∧
        publishAttempted (mainRun envC6w).trace = true) :=
  ⟨by decide, resolver_failure_degrades envC6w (by decide)⟩

/-- C7: in every run that reaches the publish stage, logout is attempted
    exactly twice (pre-login and in the finally-style cleanup), whatever
    the outcome of login, build or push, and even when the password file
    is missing and login raises. -/
theorem logout_twice (env : Env)
    (h : publishAttempted (mainRun env).trace = true) :
    logoutCount (mainRun env).trace = 2 := by
  rcases hres : resolveLinks env.apiLinks with ⟨du, v⟩
  cases hg : skipGuard v (read_prev_version env.versionFileContent) env.forceBuild with
  | true =>
    rw [mainRun_eq_skip env du v hres hg] at h
    simp [publishAttempted] at h
  | false =>
    rw [mainRun_eq_go env du v hres hg] at h ⊢
    cases du with
    | none =>
      rw [afterGuard_none]
      exact afterDownload_logoutCount env v [] rfl
    | some u =>
      cases he : u.data.isEmpty with
      | true =>
        rw [afterGuard_some_empty env u v he]
        exact afterDownload_logoutCount env v [] rfl
      | false =>
        cases hc : curlExitZero (curl_cmd u defaultOutputZip)
            env.curlTransportOk env.curlHttp2xx with
        | true =>
          rw [afterGuard_some_ok env u v he hc]
          exact afterDownload_logoutCount env v _ rfl
        | false =>
          rw [afterGuard_some_fail env u v he hc] at h
          simp [publishAttempted, isLogout] at h

/-- C7 witness: a run whose login fails still logs out exactly twice. -/
theorem logout_twice_witness :
    publishAttempted (mainRun envC7w).trace = true ∧
      logoutCount (mainRun envC7w).trace = 2 :=
  ⟨by decide, logout_twice envC7w (by decide)⟩

/-- C8: in every run in which `git diff --cached --quiet` reports nothing
    staged, no commit and no push command is executed. -/
theorem clean_tree_no_commit_push (env : Env)
    (h : env.gitDiffCachedQuiet = true) :
    (mainRun env).trace.any isGitCommit = false ∧
      (mainRun env).trace.any isGitPush = false := by
  rcases hres : resolveLinks env.apiLinks with ⟨du, v⟩
  cases hg : skipGuard v (read_prev_version env.versionFileContent) env.forceBuild with
  | true =>
    rw [mainRun_eq_skip env du v hres hg]
    exact ⟨rfl, rfl⟩
  | false =>
    rw [mainRun_eq_go env du v hres hg]
    cases du with
    | none =>
      rw [afterGuard_none]
      exact afterDownload_no_commit_push env v [] h ⟨rfl, rfl⟩
    | some u =>
      cases he : u.data.isEmpty with
      | true =>
        rw [afterGuard_some_empty env u v he]
        exact afterDownload_no_commit_push env v [] h ⟨rfl, rfl⟩
      | false =>
        cases hc : curlExitZero (curl_cmd u defaultOutputZip)
            env.curlTransportOk env.curlHttp2xx with
        | true =>
          rw [afterGuard_some_ok env u v he hc]
          exact afterDownload_no_commit_push env v _ h ⟨rfl, rfl⟩
        | false =>
          rw [afterGuard_some_fail env u v he hc]
          exact ⟨rfl, rfl⟩

/-- C8 witness: a fully successful run with a clean tree commits and
    pushes nothing. -/
theorem clean_tree_no_commit_push_witness :
    envC8w.gitDiffCachedQuiet = true ∧
      ((mainRun envC8w).trace.any isGitCommit = false ∧
        (mainRun envC8w).trace.any isGitPush = false) :=
  ⟨rfl, clean_tree_no_commit_push envC8w rfl⟩

/-- C3 (amended): the run skips — terminates successfully with no
    download, no publish and the state file untouched — exactly when the
    resolved version is known, equals the recorded one, and the force
    flag is off.  In every other case the run proceeds to the
    download-and-publish phase: the download is attempted exactly when a
    truthy (present and nonempty) URL is available, and the publish
    stage is reached unless an attempted download fails. -/
theorem guard_skip_iff (env : Env) :
    ((downloadAttempted (mainRun env).trace = false ∧
      publishAttempted (mainRun env).trace = false ∧
      (mainRun env).stateFile = env.versionFileContent ∧
      (mainRun env).crashed = false)
     ↔ ((resolveLinks env.apiLinks).2 ≠ "unknown" ∧
        read_prev_version env.versionFileContent = some (resolveLinks env.apiLinks).2 ∧
        env.forceBuild = false))
    ∧ (¬((resolveLinks env.apiLinks).2 ≠ "unknown" ∧
         read_prev_version env.versionFileContent = some (resolveLinks env.apiLinks).2 ∧
         env.forceBuild = false) →
       ((downloadAttempted (mainRun env).trace = true ↔
          pyTruthy (resolveLinks env.apiLinks).1 = true) ∧
        (publishAttempted (mainRun env).trace = true ↔
          ∀ u, (resolveLinks env.apiLinks).1 = some u → u.data.isEmpty = false →
            curlExitZero (curl_cmd u defaultOutputZip)
              env.curlTransportOk env.curlHttp2xx = true))) := by
  rcases hres : resolveLinks env.apiLinks with ⟨du, v⟩
  dsimp only
  cases hg : skipGuard v (read_prev_version env.versionFileContent) env.forceBuild with
  | true =>
    have hRHS := (skipGuard_iff v _ _).mp hg
    rw [mainRun_eq_skip env du v hres hg]
    constructor
    · exact iff_of_true ⟨rfl, rfl, rfl, rfl⟩ hRHS
    · intro hn
      exact absurd hRHS hn
  | false =>
    have hnRHS : ¬(v ≠ "unknown" ∧
        read_prev_version env.versionFileContent = some v ∧ env.forceBuild = false) := by
      intro hx
      rw [(skipGuard_iff v _ _).mpr hx] at hg
      cases hg
    rw [mainRun_eq_go env du v hres hg]
    cases du with
    | none =>
      rw [afterGuard_none]
      constructor
      · refine iff_of_false ?_ hnRHS
        intro hL
        have hp := afterDownload_publish env v []
        rw [hL.2.1] at hp
        cases hp
      · intro _
        constructor
        · rw [afterDownload_download]
          simp [downloadAttempted, pyTruthy]
        · refine iff_of_true (afterDownload_publish env v []) ?_
          intro u hu
          cases hu
    | some u =>
      cases he : u.data.isEmpty with
      | true =>
        rw [afterGuard_some_empty env u v he]
        constructor
        · refine iff_of_false ?_ hnRHS
          intro hL
          have hp := afterDownload_publish env v []
          rw [hL.2.1] at hp
          cases hp
        · intro _
          constructor
          · rw [afterDownload_download]
            simp [downloadAttempted, pyTruthy, he]
          · refine iff_of_true (afterDownload_publish env v []) ?_
            intro u2 hu2 hne
            cases hu2
            rw [he] at hne
            cases hne
      | false =>
        cases hc : curlExitZero (curl_cmd u defaultOutputZip)
            env.curlTransportOk env.curlHttp2xx with
        | true =>
          rw [afterGuard_some_ok env u v he hc]
          constructor
          · refine iff_of_false ?_ hnRHS
            intro hL
            have hd := hL.1
            rw [afterDownload_download] at hd
            simp [downloadAttempted, isDownloadAttempt] at hd
          · intro _
            constructor
            · rw [afterDownload_download]
              simp [downloadAttempted, isDownloadAttempt, pyTruthy, he]
            · refine iff_of_true (afterDownload_publish env v _) ?_
              intro u2 hu2 _
              cases hu2
              exact hc
        | false =>
          rw [afterGuard_some_fail env u v he hc]
          constructor
          · refine iff_of_false ?_ hnRHS
            intro hL
            have hd := hL.1
            simp [downloadAttempted, isDownloadAttempt] at hd
          · intro _
            constructor
            · simp [downloadAttempted, isDownloadAttempt, pyTruthy, he]
            · refine iff_of_false ?_ ?_
              · simp [publishAttempted, isLogout]
              · intro hall
                have hcu := hall u rfl he
                rw [hc] at hcu
                cases hcu

/-- A run whose guard does not skip and whose download then fails. -/
def envC3x : Env :=
  { apiLinks := some [linuxEntry], versionFileContent := none, forceBuild := false,
    curlTransportOk := false, curlHttp2xx := true, passFileContent := some ("hunter2"),
    logoutExitZero := true, loginExitZero := true, buildExitZero := true,
    pushExitZero := true, gitAddExitZero := true, gitDiffCachedQuiet := true,
    gitCommitExitZero := true, gitPushExitZero := true, writeSucceeds := true }

/-- C3 counterexample: a run that is not a skip (no recorded version)
    attempts the download, which fails, and never reaches publish —
    contradicting the claim that every non-skip run proceeds through
    download and publish. -/
theorem guard_proceed_cex :
    read_prev_version envC3x.versionFileContent
        ≠ some (resolveLinks envC3x.apiLinks).2 ∧
      downloadAttempted (mainRun envC3x).trace = true ∧
      publishAttempted (mainRun envC3x).trace = false := by
  refine ⟨?_, ?_, ?_⟩ <;> decide

/-- A run whose resolved version equals the recorded one. -/
def envC3w : Env :=
  { apiLinks := some [linuxEntry], versionFileContent := some ("1.21.102.1\n"),
    forceBuild := false,
    curlTransportOk := true, curlHttp2xx := true, passFileContent := some ("hunter2"),
    logoutExitZero := true, loginExitZero := true, buildExitZero := true,
    pushExitZero := true, gitAddExitZero := true, gitDiffCachedQuiet := true,
    gitCommitExitZero := true, gitPushExitZero := true, writeSucceeds := true }

/-- C3 witness: the guard characterisation at a concrete skip run. -/
theorem guard_skip_iff_witness :
    ((downloadAttempted (mainRun envC3w).trace = false ∧
      publishAttempted (mainRun envC3w).trace = false ∧
      (mainRun envC3w).stateFile = envC3w.versionFileContent ∧
      (mainRun envC3w).crashed = false)
     ↔ ((resolveLinks envC3w.apiLinks).2 ≠ "unknown" ∧
        read_prev_version envC3w.versionFileContent
          = some (resolveLinks envC3w.apiLinks).2 ∧
        envC3w.forceBuild = false))
    ∧ (¬((resolveLinks envC3w.apiLinks).2 ≠ "unknown" ∧
         read_prev_version envC3w.versionFileContent
           = some (resolveLinks envC3w.apiLinks).2 ∧
         envC3w.forceBuild = false) →
       ((downloadAttempted (mainRun envC3w).trace = true ↔
          pyTruthy (resolveLinks envC3w.apiLinks).1 = true) ∧
        (publishAttempted (mainRun envC3w).trace = true ↔
          ∀ u, (resolveLinks envC3w.apiLinks).1 = some u → u.data.isEmpty = false →
            curlExitZero (curl_cmd u defaultOutputZip)
              envC3w.curlTransportOk envC3w.curlHttp2xx = true))) :=
  guard_skip_iff envC3w

/-- C1 (code bug): in a run where the API check raises — so the resolved
    version is "unknown" — and the Docker steps all succeed, `main`
    invokes `write_version_atomic` anyway, because the guard before the
    record step checks only built_ok; the state file is overwritten with
    "unknown", although the comment at that step in the source says the
    version is recorded only when it is known. -/
theorem unknown_version_recorded :
    (resolveLinks envC1.apiLinks).2 = "unknown" ∧
      stateWritten (mainRun envC1).trace = true ∧
      (mainRun envC1).stateFile = some ("unknown\n") ∧
      (mainRun envC1).stateFile ≠ envC1.versionFileContent := by
  refine ⟨?_, ?_, ?_, ?_⟩ <;> decide

/-- C4: the state-file write is write-temp-then-rename: an interruption
    while the temporary file holds any partially written content, or
    between the completed temporary write and the rename, leaves the
    target state file unchanged and readable; the completed rename
    installs the entire new content in one step, so the target is never
    observable half-written. -/
theorem atomic_write_safe (fs : FS) (version midContent : String) :
    (tmpWrite fs midContent).target = fs.target ∧
      (tmpWrite fs (version ++ "\n")).target = fs.target ∧
      read_prev_version (tmpWrite fs (version ++ "\n")).target
        = read_prev_version fs.target ∧
      (write_version_atomic fs version).target = some (version ++ "\n") :=
  ⟨rfl, rfl, rfl, rfl⟩

/-- C9: the registry secret flows only through standard input: the echoed
    command line and the argument vector of the spawned login process are
    identical for any two credential-file contents, and the secret
    reaches the process only as its stdin data. -/
theorem login_secret_not_in_argv (username p1 p2 : String) :
    (docker_login username p1).printed = (docker_login username p2).printed ∧
      (docker_login username p1).spawns.map Spawn.argv
        = (docker_login username p2).spawns.map Spawn.argv ∧
      (docker_login username p1).spawns.map Spawn.stdinData = [some p1] :=
  ⟨rfl, rfl, rfl⟩

/-- A URL whose filename does not match the pattern but whose query
    string does. -/
def cexUrl : String := "https://example.com/x?y=bedrock-server-1.2.3.zip"

/-- C5 (amended): extraction is total and yields "1.21.102.1" for the
    example URL; it yields "unknown" exactly on URLs where the pattern
    matches neither the path filename nor — the fallback — the entire
    URL.  (A URL whose filename does not match can still yield a version
    through the fallback; see the counterexample.) -/
theorem version_extraction (url : String)
    (h1 : searchVersion (posixName (urlparsePath url.toList)) = none)
    (h2 : searchVersion url.toList = none) :
    versionOfUrl apiUrl = "1.21.102.1" ∧ versionOfUrl url = "unknown" := by
  constructor
  · decide
  · unfold versionOfUrl extract_version_from_url
    rw [h1, h2]
    rfl

/-- C5 witness: a URL matching nowhere yields "unknown". -/
theorem version_extraction_witness :
    searchVersion (posixName (urlparsePath ("https://example.com/other").toList))
        = none ∧
      searchVersion ("https://example.com/other").toList = none ∧
      (versionOfUrl apiUrl = "1.21.102.1" ∧
        versionOfUrl ("https://example.com/other") = "unknown") :=
  ⟨by decide, by decide,
    version_extraction ("https://example.com/other") (by decide) (by decide)⟩

/-- C5 counterexample: the filename of this URL is `x`, which does not
    match the pattern, yet extraction yields "1.2.3" through the
    whole-URL fallback — contradicting the claim that every URL whose
    filename does not match yields "unknown". -/
theorem filename_fallback_cex :
    searchVersion (posixName (urlparsePath cexUrl.toList)) = none ∧
      versionOfUrl cexUrl = "1.2.3" ∧
      versionOfUrl cexUrl ≠ "unknown" := by
  refine ⟨?_, ?_, ?_⟩ <;> decide

/- ------------------------- strip round trip ------------------------- -/

/-- A list that strip leaves unchanged is also unchanged by each
    individual one-sided strip. -/
theorem dropWhile_eq_self_of_strip (l : List Char) (h : pyStripList l = l) :
    l.dropWhile isPySpace = l ∧ l.reverse.dropWhile isPySpace = l.reverse := by
  have hsub1 : List.Sublist (l.dropWhile isPySpace) l :=
    List.dropWhile_sublist isPySpace
  have hsub2 : List.Sublist ((l.dropWhile isPySpace).reverse.dropWhile isPySpace)
      ((l.dropWhile isPySpace).reverse) := List.dropWhile_sublist isPySpace
  have hlen : (pyStripList l).length = l.length := by rw [h]
  have hlen2 : (pyStripList l).length
      = ((l.dropWhile isPySpace).reverse.dropWhile isPySpace).length := by
    unfold pyStripList
    rw [List.length_reverse]
  have hle1 : ((l.dropWhile isPySpace).reverse.dropWhile isPySpace).length
      ≤ (l.dropWhile isPySpace).length := by
    have hx := hsub2.length_le
    rwa [List.length_reverse] at hx
  have hle2 : (l.dropWhile isPySpace).length ≤ l.length := hsub1.length_le
  have h1 : l.dropWhile isPySpace = l := hsub1.eq_of_length (by omega)
  refine ⟨h1, ?_⟩
  have hb : (l.reverse.dropWhile isPySpace).reverse = l := by
    have hy := h
    unfold pyStripList at hy
    rwa [h1] at hy
  calc l.reverse.dropWhile isPySpace
      = ((l.reverse.dropWhile isPySpace).reverse).reverse := by
        rw [List.reverse_reverse]
    _ = l.reverse := by rw [hb]

/-- Appending a newline to a both-ends-clean list and stripping gives the
    list back. -/
theorem pyStripList_append_newline (l : List Char) (h : pyStripList l = l) :
    pyStripList (l ++ ['\n']) = l := by
  obtain ⟨h1, h2⟩ := dropWhile_eq_self_of_strip l h
  cases l with
  | nil => rfl
  | cons c t =>
    have hc : isPySpace c = false := by
      cases hcc : isPySpace c with
      | false => rfl
      | true =>
        rw [List.dropWhile_cons_of_pos hcc] at h1
        have hz := (List.dropWhile_sublist (l := t) isPySpace).length_le
        rw [h1] at hz
        simp at hz
    have hstep1 : ((c :: t) ++ ['\n']).dropWhile isPySpace = (c :: t) ++ ['\n'] := by
      rw [List.cons_append]
      exact List.dropWhile_cons_of_neg (by simp [hc])
    have hrev : ((c :: t) ++ ['\n']).reverse = '\n' :: (c :: t).reverse := by
      rw [List.reverse_append]
      rfl
    unfold pyStripList
    rw [hstep1, hrev, List.dropWhile_cons_of_pos (by decide), h2,
      List.reverse_reverse]

/-- String-level version of the round trip through a trailing newline. -/
theorem pyStrip_append_newline (v : String) (h : pyStrip v = v) :
    pyStrip (v ++ "\n") = v := by
  have hl : pyStripList v.data = v.data := congrArg String.data h
  have hdata : (v ++ "\n").data = v.data ++ ['\n'] := rfl
  show String.mk (pyStripList (v ++ "\n").data) = v
  rw [hdata, pyStripList_append_newline v.data hl]

/-- C10: writing a version string with no leading or trailing whitespace
    through `write_version_atomic` and reading it back with
    `read_prev_version` yields exactly that string: the trailing newline
    added on write is stripped on read. -/
theorem version_roundtrip (fs : FS) (v : String) (h : pyStrip v = v) :
    read_prev_version (write_version_atomic fs v).target = some v := by
  show some (pyStrip (v ++ "\n")) = some v
  rw [pyStrip_append_newline v h]

/-- C10 witness: the round trip at a concrete version string. -/
theorem version_roundtrip_witness :
    pyStrip ("1.21.102.1") = "1.21.102.1" ∧
      read_prev_version
          (write_version_atomic ⟨some ("1.21.0\n"), none⟩ ("1.21.102.1")).target
        = some ("1.21.102.1") :=
  ⟨by decide, version_roundtrip ⟨some ("1.21.0\n"), none⟩ ("1.21.102.1") (by decide)⟩

end BuildIt
